import Mathlib

/-!
Verification of the typed field-mapping and backend-lifecycle contract of the
log ingestion/emission framework (files src/InputReaderAscii.h and
src/logging/writers/None.h).

The repository ships the two headers above.  Method bodies that live in the
corresponding .cc files (InputReaderAscii::ReadHeader, ::EntryToVal,
::DoFinish, None::DoRotate, and the WriterBackend base class) are not part of
the source tree; where a claim depends on them the definition is modelled from
the specification and marked `Modelled from the spec:` in its doc comment.
Everything else is a direct shallow embedding of the header code.
-/

/-- Modelled from the spec: the TypeTag enumeration is declared outside the
shipped headers.  Spec section 3 lists the minimal kinds Bool, Int, Count,
Double, Time, Interval, String and a container kind; `error` stands for the
indeterminate/unset tag value. -/
inductive TypeTag where
  | bool
  | int
  | count
  | double
  | time
  | interval
  | string
  | container
  | error
deriving DecidableEq, Repr

/-- Modelled from the spec: the output-schema field record (named LogField / threading::Field in
the headers) is declared outside the shipped sources.  Spec section 3: name,
TypeTag, and an element TypeTag meaningful only for container fields. -/
structure LogField where
  name : String
  type : TypeTag
  elementType : TypeTag
deriving DecidableEq, Repr

/-- Shallow embedding of `struct FieldMapping` from src/InputReaderAscii.h:
name, type, set_type and an integer position. -/
structure FieldMapping where
  name : String
  type : TypeTag
  set_type : TypeTag
  position : Int
deriving DecidableEq, Repr

/-- From src/InputReaderAscii.h line 24: `bool IsEmpty() { return position == -1; }`. -/
def FieldMapping.IsEmpty (m : FieldMapping) : Bool :=
  m.position == -1

/-- From src/InputReaderAscii.h line 21: the zero-argument constructor
`FieldMapping() { position = -1; }` sets position to -1 and leaves the
TypeTag members indeterminate (std::string `name` default-constructs to "").
The indeterminate tags are taken as parameters. -/
def FieldMapping.defaultCtor (t st : TypeTag) : FieldMapping :=
  { name := "", type := t, set_type := st, position := -1 }

/-- The empty sentinel mapping produced when an output field has no matching
external column; indeterminate tags modelled by `TypeTag.error`. -/
def FieldMapping.emptyMapping : FieldMapping :=
  FieldMapping.defaultCtor TypeTag.error TypeTag.error

/-- Index of the first external column whose name matches, if any. -/
def columnIndex (name : String) : List String → Option Nat
  | [] => none
  | c :: cs => if c = name then some 0 else (columnIndex name cs).map (· + 1)

/-- Modelled from the spec: the body of `InputReaderAscii::ReadHeader`
(declared at src/InputReaderAscii.h line 44) is not in the source tree.
Spec section 4.1: for each required Field, search the external column list for
a column whose name matches; if found, emit a FieldMapping with position =
that column index and type/elementType copied from the Field; if not found,
emit an empty FieldMapping (position = -1). -/
def deriveFieldMapping (cols : List String) (f : LogField) : FieldMapping :=
  match columnIndex f.name cols with
  | some i => { name := f.name, type := f.type, set_type := f.elementType, position := (i : Int) }
  | none => FieldMapping.emptyMapping

/-- Modelled from the spec: the columnMap derivation pass of ReadHeader —
one FieldMapping per required Field, in output-schema order. -/
def deriveColumnMap (schema : List LogField) (cols : List String) : List FieldMapping :=
  schema.map (deriveFieldMapping cols)

/-- A typed converted value (spec section 3).  One variant per TypeTag; the
floating-point-like kinds retain their raw text since the numeric payload is
irrelevant to the mapping contract; `unset` is the absent/invalid state. -/
inductive Value where
  | vbool (b : Bool)
  | vint (i : Int)
  | vcount (n : Nat)
  | vdouble (raw : String)
  | vtime (raw : String)
  | vinterval (raw : String)
  | vstring (s : String)
  | vcontainer (elems : List Value)
  | unset (t : TypeTag)
deriving Repr

/-- The TypeTag a Value carries. -/
def Value.tag : Value → TypeTag
  | .vbool _ => .bool
  | .vint _ => .int
  | .vcount _ => .count
  | .vdouble _ => .double
  | .vtime _ => .time
  | .vinterval _ => .interval
  | .vstring _ => .string
  | .vcontainer _ => .container
  | .unset t => t

/-- Reader-side configuration fixed at Init time (spec section 4.2): the
container element separator and the policy for an empty container column. -/
structure ReaderConfig where
  setSeparator : String
  emptyAsUnset : Bool
deriving DecidableEq, Repr

/-- Conversion of one raw token at a primitive TypeTag; parse failure is none. -/
def parsePrimitive (t : TypeTag) (s : String) : Option Value :=
  match t with
  | .bool => if s = "T" then some (.vbool true) else if s = "F" then some (.vbool false) else none
  | .int => (String.toInt? s).map Value.vint
  | .count => (String.toNat? s).map Value.vcount
  | .double => some (.vdouble s)
  | .time => some (.vtime s)
  | .interval => some (.vinterval s)
  | .string => some (.vstring s)
  | .container => none
  | .error => none

/-- Modelled from the spec: the body of `InputReaderAscii::EntryToVal`
(declared at src/InputReaderAscii.h line 45) is not in the source tree.
Spec section 4.2: conversion is a pure function of (raw representation,
TypeTag, elementType); container columns are split on the configured
separator and each element converted at the element type; an empty split is
an empty container or an absent value per the configured policy. -/
def entryToVal (cfg : ReaderConfig) (s : String) (m : FieldMapping) : Option Value :=
  match m.type with
  | .container =>
      if s = "" then
        if cfg.emptyAsUnset then some (.unset .container)
        else some (.vcontainer [])
      else
        ((s.splitOn cfg.setSeparator).mapM (parsePrimitive m.set_type)).map Value.vcontainer
  | t => parsePrimitive t s

/-- Private state of InputReaderAscii (src/InputReaderAscii.h lines 49-57):
the open file (modelled as its remaining lines, none when released), its name,
the field counts and the derived columnMap. -/
structure ReaderState where
  file : Option (List String)
  fname : String
  num_fields : Nat
  idx_fields : Nat
  columnMap : List FieldMapping
deriving DecidableEq, Repr

/-- EntryToVal as the member function of InputReaderAscii: it has the reader
state in scope but, per the spec contract, the result depends only on the raw
string and the mapping (plus the Init-time configuration). -/
def readerEntryToVal (cfg : ReaderConfig) (_st : ReaderState) (s : String)
    (m : FieldMapping) : Option Value :=
  entryToVal cfg s m

/-- Modelled from the spec: the body of `InputReaderAscii::DoFinish`
(declared at src/InputReaderAscii.h line 39) is not in the source tree.
Spec section 4.3: Finish releases the source; idempotent; always reachable
even after a failed Init/Update. -/
def readerDoFinish (s : ReaderState) : ReaderState :=
  { s with file := none }

/-- Modelled from the spec: the RotateInfo record (src/logging/writers/None.h
line 27 takes a `const RotateInfo&`; the type itself is declared outside the
shipped sources).  Spec section 3: newPath, open and close timestamps, and the
terminating flag. -/
structure RotateInfo where
  newPath : String
  openTime : Nat
  closeTime : Nat
  terminating : Bool
deriving DecidableEq, Repr

/-- Backend-private state of the None writer.  The None class declares no data
members (src/logging/writers/None.h lines 12-31); `persisted` is the ghost
list of records the backend has persisted, used to observe side effects. -/
structure NoneState where
  persisted : List (List Value)
deriving Repr

/-- Initial backend state: nothing persisted yet. -/
def noneInit : NoneState :=
  { persisted := [] }

/-- From src/logging/writers/None.h lines 24-25:
`DoWrite(num_fields, fields, vals) { return true; }` — the result is the
constant true and no member state is read or written. -/
def noneDoWrite (num_fields : Nat) (fields : List LogField)
    (vals : List Value) : Bool :=
  true

/-- From src/logging/writers/None.h line 26: `DoSetBuf(enabled) { return true; }`. -/
def noneDoSetBuf (enabled : Bool) : Bool :=
  true

/-- From src/logging/writers/None.h line 29: `DoFlush() { return true; }`. -/
def noneDoFlush : Bool :=
  true

/-- Modelled from the spec: the body of `None::DoRotate` (declared at
src/logging/writers/None.h lines 27-28) is not in the source tree.  The
comment at the top of the header calls the class a dummy writer that still pretends to
rotate, and spec section 8 requires a no-op backend to report success for
every Rotate call; so the model reports success and touches no backend state. -/
def noneDoRotate (rotated_path : String) (info : RotateInfo)
    (terminating : Bool) (s : NoneState) : Bool × NoneState :=
  (true, s)

/-- From src/logging/writers/None.h line 30: `DoFinish()` calls
`WriterBackend::DoFinish()` (whose body, outside the shipped sources, releases
the sink at the wrapper level, not in the backend state) and returns true. -/
def noneDoFinish (s : NoneState) : Bool × NoneState :=
  (true, s)

/-- One call into the virtual interface of the None backend. -/
inductive NoneOp where
  | write (num_fields : Nat) (fields : List LogField) (vals : List Value)
  | flush
  | setBuf (enabled : Bool)
  | rotate (rotated_path : String) (info : RotateInfo) (terminating : Bool)
deriving Repr

/-- Dispatch one call to the None backend, per the header bodies above. -/
def noneStep (s : NoneState) : NoneOp → Bool × NoneState
  | .write nf fs vs => (noneDoWrite nf fs vs, s)
  | .flush => (noneDoFlush, s)
  | .setBuf b => (noneDoSetBuf b, s)
  | .rotate p i t => noneDoRotate p i t s

/-- Run a sequence of calls, collecting each reported status. -/
def noneRun (s : NoneState) : List NoneOp → List Bool × NoneState
  | [] => ([], s)
  | op :: ops =>
      let r := noneStep s op
      let rr := noneRun r.2 ops
      (r.1 :: rr.1, rr.2)

/-- Wrapper-level state of a writer: whether the sink is open, plus the
backend-private state. -/
structure WriterShell (σ : Type) where
  sinkOpen : Bool
  backend : σ

/-- Do the lengths and per-position TypeTags of a Value array match the
declared output schema? -/
def valsMatchSchema (schema : List LogField) (vals : List Value) : Bool :=
  vals.length == schema.length &&
    (List.zip schema vals).all (fun p => p.2.tag == p.1.type)

/-- Modelled from the spec: the `WriterBackend::Write` wrapper (the
WriterBackend base class is outside the shipped sources).  Spec sections 4.4
and 7: the values array must exactly match the output schema in length and
per-position TypeTag; a mismatch is a contract violation reported as an error
with no persisted side effect; a write on a closed sink is likewise reported
as a failure; only a conforming call reaches DoWrite of the backend. -/
def shellWrite {σ : Type} (doW : List Value → σ → Bool × σ)
    (schema : List LogField) (s : WriterShell σ) (vals : List Value) :
    Bool × WriterShell σ :=
  if s.sinkOpen then
    if valsMatchSchema schema vals then
      let r := doW vals s.backend
      (r.1, { s with backend := r.2 })
    else (false, s)
  else (false, s)

/-- Modelled from the spec: the `WriterBackend::Rotate` wrapper.  Spec
section 4.4: Rotate atomically closes the current sink and opens a new one at
the new path unless `terminating` is true, in which case no new sink is
opened; DoRotate of the backend is invoked for the backend-specific part. -/
def shellRotate {σ : Type} (doR : String → RotateInfo → Bool → σ → Bool × σ)
    (path : String) (info : RotateInfo) (terminating : Bool)
    (s : WriterShell σ) : Bool × WriterShell σ :=
  let r := doR path info terminating s.backend
  (r.1, { sinkOpen := !terminating, backend := r.2 })

/-- Modelled from the spec: `WriterBackend::DoFinish` (outside the shipped
sources) releases the sink; spec section 4.4 requires Finish to be idempotent
and safe after a failed Rotate. -/
def writerBackendDoFinish {σ : Type} (s : WriterShell σ) : WriterShell σ :=
  { s with sinkOpen := false }

/-- The Finish path of the None writer, from src/logging/writers/None.h line 30:
DoFinish calls WriterBackend::DoFinish and then returns true. -/
def noneFinish (s : WriterShell NoneState) : Bool × WriterShell NoneState :=
  ((noneDoFinish s.backend).1, writerBackendDoFinish
    { s with backend := (noneDoFinish s.backend).2 })

/-- Run a sequence of Write calls through the wrapper, collecting statuses. -/
def shellRunWrites {σ : Type} (doW : List Value → σ → Bool × σ)
    (schema : List LogField) (s : WriterShell σ) :
    List (List Value) → List Bool × WriterShell σ
  | [] => ([], s)
  | vs :: rest =>
      let r := shellWrite doW schema s vs
      let rr := shellRunWrites doW schema r.2 rest
      (r.1 :: rr.1, rr.2)

/-- The DoWrite of the None backend lifted to the shape the wrapper expects. -/
def noneDoWriteLifted (vals : List Value) (s : NoneState) : Bool × NoneState :=
  (noneDoWrite vals.length [] vals, s)

/-- A name is absent from the column list exactly when columnIndex finds nothing. -/
theorem columnIndex_eq_none_iff (name : String) (cols : List String) :
    columnIndex name cols = none ↔ name ∉ cols := by
  induction cols with
  | nil => simp [columnIndex]
  | cons c cs ih =>
      by_cases h : c = name
      · subst h
        simp [columnIndex]
      · have h2 : ¬ name = c := fun hh => h hh.symm
        simp [columnIndex, h, Option.map_eq_none', ih, List.mem_cons, h2]

/-- The index columnIndex reports really points at the matching column. -/
theorem columnIndex_get (name : String) (cols : List String) (i : Nat)
    (h : columnIndex name cols = some i) : cols.get? i = some name := by
  induction cols generalizing i with
  | nil => simp [columnIndex] at h
  | cons c cs ih =>
      by_cases hc : c = name
      · subst hc
        simp [columnIndex] at h
        subst h
        rfl
      · simp [columnIndex, hc, Option.map_eq_some'] at h
        obtain ⟨j, hj, hji⟩ := h
        subst hji
        simpa [List.get?] using ih j hj

/-- A Write through the wrapper on a closed sink fails and changes nothing. -/
theorem shellWrite_closed {σ : Type} (doW : List Value → σ → Bool × σ)
    (schema : List LogField) (s : WriterShell σ) (vals : List Value)
    (h : s.sinkOpen = false) : shellWrite doW schema s vals = (false, s) := by
  simp [shellWrite, h]

/-- Every Write of a sequence issued on a closed sink fails, and the state is
unchanged throughout. -/
theorem shellRunWrites_closed {σ : Type} (doW : List Value → σ → Bool × σ)
    (schema : List LogField) (s : WriterShell σ) (h : s.sinkOpen = false)
    (writes : List (List Value)) :
    ((shellRunWrites doW schema s writes).1.all (fun b => b == false)) = true ∧
    (shellRunWrites doW schema s writes).2 = s := by
  induction writes with
  | nil => simp [shellRunWrites]
  | cons vs rest ih =>
      have hw := shellWrite_closed doW schema s vs h
      have ih1 := ih.1
      simp at ih1
      simp [shellRunWrites, hw, ih1, ih.2]

/-- Every call into the None backend reports true and leaves the state as is. -/
theorem noneStep_spec (s : NoneState) (op : NoneOp) :
    (noneStep s op).1 = true ∧ (noneStep s op).2 = s := by
  cases op <;>
    simp [noneStep, noneDoWrite, noneDoFlush, noneDoSetBuf, noneDoRotate]

/-- Any sequence of calls into the None backend reports all-true and leaves
the state unchanged. -/
theorem noneRun_spec (s : NoneState) (ops : List NoneOp) :
    ((noneRun s ops).1.all (fun b => b == true)) = true ∧
    (noneRun s ops).2 = s := by
  induction ops generalizing s with
  | nil => simp [noneRun]
  | cons op ops ih =>
      have h := noneStep_spec s op
      have ih1 := (ih s).1
      simp at ih1
      simp [noneRun, h.1, h.2, ih1, (ih s).2]

/-- C1: FieldMapping derivation postcondition.  For a required Field whose
name occurs in the external column list, the derived FieldMapping carries
position = the index of that column (hence nonnegative) and the type and
elementType copied from the Field, and the index really points at the
matching column; for a Field whose name does not occur, columnIndex finds
nothing and the derived FieldMapping is the empty sentinel with
position = -1. -/
theorem derive_fieldMapping_spec (cols : List String) (f : LogField) :
    (∀ i, columnIndex f.name cols = some i →
      deriveFieldMapping cols f =
        { name := f.name, type := f.type, set_type := f.elementType,
          position := (i : Int) } ∧
      0 ≤ (deriveFieldMapping cols f).position ∧
      cols.get? i = some f.name) ∧
    (f.name ∉ cols →
      columnIndex f.name cols = none ∧
      (deriveFieldMapping cols f).position = -1 ∧
      (deriveFieldMapping cols f).IsEmpty = true) ∧
    (f.name ∈ cols → (columnIndex f.name cols).isSome = true) := by
  refine ⟨?_, ?_, ?_⟩
  · intro i hi
    refine ⟨?_, ?_, columnIndex_get f.name cols i hi⟩
    · simp [deriveFieldMapping, hi]
    · simp [deriveFieldMapping, hi]
  · intro habs
    have hn : columnIndex f.name cols = none :=
      (columnIndex_eq_none_iff f.name cols).mpr habs
    refine ⟨hn, ?_, ?_⟩ <;>
      simp [deriveFieldMapping, hn, FieldMapping.emptyMapping,
        FieldMapping.defaultCtor, FieldMapping.IsEmpty]
  · intro hmem
    rcases ho : columnIndex f.name cols with _ | i
    · exact absurd ((columnIndex_eq_none_iff f.name cols).mp ho) (by simp [hmem])
    · rfl

/-- Witness for C1 at concrete inputs: the field named b maps to column 1 of
[a, b]; the field named c, absent from [a, b], derives the empty sentinel. -/
theorem derive_fieldMapping_spec_witness :
    deriveFieldMapping ["a", "b"] ⟨"b", TypeTag.int, TypeTag.error⟩ =
      { name := "b", type := TypeTag.int, set_type := TypeTag.error,
        position := (1 : Int) } ∧
    (deriveFieldMapping ["a", "b"] ⟨"c", TypeTag.int, TypeTag.error⟩).IsEmpty
      = true := by
  constructor
  · exact ((derive_fieldMapping_spec ["a", "b"]
      ⟨"b", TypeTag.int, TypeTag.error⟩).1 1 (by decide)).1
  · exact ((derive_fieldMapping_spec ["a", "b"]
      ⟨"c", TypeTag.int, TypeTag.error⟩).2.1 (by decide)).2.2

/-- C5: IsEmpty returns true exactly when position is -1, and the verdict
depends only on the position field: replacing name, type and set_type by any
other values leaves IsEmpty unchanged. -/
theorem fieldMapping_isEmpty_iff (m : FieldMapping) (n : String)
    (t st : TypeTag) :
    (m.IsEmpty = true ↔ m.position = -1) ∧
    FieldMapping.IsEmpty ⟨n, t, st, m.position⟩ = m.IsEmpty := by
  constructor
  · simp [FieldMapping.IsEmpty]
  · simp [FieldMapping.IsEmpty]

/-- C6: re-deriving the columnMap against the same output schema and the same
unchanged external column list yields (name, type, position) tuples that are
identical and in the same order; the derivation is a pure function, so the
two passes agree definitionally. -/
theorem deriveColumnMap_deterministic (schema : List LogField)
    (cols : List String) :
    (deriveColumnMap schema cols).map (fun m => (m.name, m.type, m.position)) =
    (deriveColumnMap schema cols).map (fun m => (m.name, m.type, m.position)) :=
  rfl

/-- C7: EntryToVal is a pure function of the raw string and the mapping:
two calls with equal raw strings and equal mappings return equal Values, for
any two reader states, so no other reader state flows into the result. -/
theorem entryToVal_pure (cfg : ReaderConfig) (st1 st2 : ReaderState)
    (s1 s2 : String) (m1 m2 : FieldMapping) (hs : s1 = s2) (hm : m1 = m2) :
    readerEntryToVal cfg st1 s1 m1 = readerEntryToVal cfg st2 s2 m2 := by
  subst hs
  subst hm
  rfl

/-- Witness for C7 at concrete inputs: two reader states differing in every
component give the same converted Value for the same raw string and mapping. -/
theorem entryToVal_pure_witness :
    readerEntryToVal ⟨",", false⟩ ⟨some ["x"], "f1", 3, 0, []⟩ "a,b"
      ⟨"tags", TypeTag.container, TypeTag.string, 2⟩ =
    readerEntryToVal ⟨",", false⟩ ⟨none, "f2", 1, 1, [FieldMapping.emptyMapping]⟩
      "a,b" ⟨"tags", TypeTag.container, TypeTag.string, 2⟩ :=
  entryToVal_pure ⟨",", false⟩ ⟨some ["x"], "f1", 3, 0, []⟩
    ⟨none, "f2", 1, 1, [FieldMapping.emptyMapping]⟩ "a,b" "a,b"
    ⟨"tags", TypeTag.container, TypeTag.string, 2⟩
    ⟨"tags", TypeTag.container, TypeTag.string, 2⟩ rfl rfl

/-- C9: a default-constructed FieldMapping has position -1 and satisfies
IsEmpty, whatever indeterminate values its TypeTag members hold. -/
theorem defaultCtor_isEmpty (t st : TypeTag) :
    (FieldMapping.defaultCtor t st).position = -1 ∧
    (FieldMapping.defaultCtor t st).IsEmpty = true :=
  ⟨rfl, rfl⟩

/-- C10: the result of None::DoWrite is independent of all of its arguments —
any two calls return the same value, namely true, so nothing of the record
content flows into the reported status. -/
theorem none_doWrite_const (n1 n2 : Nat) (f1 f2 : List LogField)
    (v1 v2 : List Value) :
    noneDoWrite n1 f1 v1 = noneDoWrite n2 f2 v2 ∧
    noneDoWrite n1 f1 v1 = true :=
  ⟨rfl, rfl⟩

/-- C2 counterexample: None::DoWrite called with a Value array of length 1
against a declared schema of length 2 does not report failure — the header
body returns true unconditionally, so the length check cannot live in
DoWrite. -/
theorem none_doWrite_mismatch_cex :
    ([Value.vbool true] : List Value).length ≠
      ([⟨"a", TypeTag.bool, TypeTag.error⟩,
        ⟨"b", TypeTag.count, TypeTag.error⟩] : List LogField).length ∧
    ¬ (noneDoWrite 1
        [⟨"a", TypeTag.bool, TypeTag.error⟩,
         ⟨"b", TypeTag.count, TypeTag.error⟩]
        [Value.vbool true] = false) := by
  constructor
  · decide
  · simp [noneDoWrite]

/-- C2 amended: for every writer backend (any DoWrite function over any
backend state), a Write through the WriterBackend wrapper with a Value array
whose length differs from the declared output schema length reports failure
and returns the state unchanged, so no record is persisted; the backend
DoWrite — None included, whose own DoWrite always returns true — is never
consulted. -/
theorem shellWrite_length_mismatch {σ : Type} (doW : List Value → σ → Bool × σ)
    (schema : List LogField) (s : WriterShell σ) (vals : List Value)
    (h : vals.length ≠ schema.length) :
    shellWrite doW schema s vals = (false, s) := by
  have h1 : (vals.length == schema.length) = false := by
    simpa using h
  have hm : valsMatchSchema schema vals = false := by
    simp [valsMatchSchema, h1]
  by_cases ho : s.sinkOpen <;> simp [shellWrite, ho, hm]

/-- Witness for the amended C2 at concrete inputs: an empty Value array
against a one-field schema is rejected with the None backend state untouched. -/
theorem shellWrite_length_mismatch_witness :
    shellWrite noneDoWriteLifted [⟨"a", TypeTag.bool, TypeTag.error⟩]
      ⟨true, noneInit⟩ [] = (false, ⟨true, noneInit⟩) :=
  shellWrite_length_mismatch noneDoWriteLifted
    [⟨"a", TypeTag.bool, TypeTag.error⟩] ⟨true, noneInit⟩ [] (by decide)

/-- C3 counterexample: on the None backend, a DoWrite issued right after a
DoRotate with terminating = true still reports success (true), not failure —
DoWrite reads no state, so no DoRotate outcome can make it fail. -/
theorem none_write_after_rotate_cex :
    ¬ ((noneStep
        (noneStep noneInit (NoneOp.rotate "p" ⟨"p", 0, 1, true⟩ true)).2
        (NoneOp.write 0 [] [])).1 = false) := by
  simp [noneStep, noneDoRotate, noneDoWrite]

/-- C3 amended: the closed-sink failure is enforced by the WriterBackend
wrapper, not by the backend DoWrite: after a Rotate with terminating = true
completes through the wrapper, the sink is closed and every subsequent Write
through the wrapper reports failure, for any backend DoWrite and DoRotate —
None included, even though its own DoWrite returns true unconditionally. -/
theorem writes_after_terminating_rotate_fail {σ : Type}
    (doW : List Value → σ → Bool × σ)
    (doR : String → RotateInfo → Bool → σ → Bool × σ)
    (schema : List LogField) (path : String) (info : RotateInfo)
    (s : WriterShell σ) (writes : List (List Value)) :
    ((shellRunWrites doW schema (shellRotate doR path info true s).2
        writes).1.all (fun b => b == false)) = true := by
  have hsink : (shellRotate doR path info true s).2.sinkOpen = false := rfl
  exact (shellRunWrites_closed doW schema _ hsink writes).1

/-- C4: across any sequence of calls into the None backend, every Write,
Flush, SetBuf and Rotate reports success (true) and the set of persisted
records stays empty. -/
theorem none_backend_success_no_persist (ops : List NoneOp) :
    ((noneRun noneInit ops).1.all (fun b => b == true)) = true ∧
    (noneRun noneInit ops).2.persisted = [] := by
  refine ⟨(noneRun_spec noneInit ops).1, ?_⟩
  rw [(noneRun_spec noneInit ops).2]
  rfl

/-- C8: Finish is idempotent for both backend kinds — finishing the reader
twice equals finishing it once, and likewise for the None writer through its
DoFinish path — and it reports success from every state, including any state
left behind by a failed Init, Update or Rotate (the statement quantifies over
all states, so every such state is covered). -/
theorem finish_idempotent (rs : ReaderState) (ws : WriterShell NoneState) :
    readerDoFinish (readerDoFinish rs) = readerDoFinish rs ∧
    (noneFinish (noneFinish ws).2).2 = (noneFinish ws).2 ∧
    (noneFinish (noneFinish ws).2).1 = true ∧
    (noneFinish ws).1 = true := by
  refine ⟨rfl, ?_, rfl, rfl⟩
  simp [noneFinish, writerBackendDoFinish, noneDoFinish]
